import Mathlib

/-!
Shallow embedding of the address-book form workflow:
the generic keyed-field state container (`useFormState` in
src `hooks/useFormState`), and the address-resolution workflow
(`handleAddressSubmit` / `handlePersonSubmit` in `App`), together with the
URL construction (`encodeURIComponent` composed with `URLSearchParams`
serialization) that the lookup step performs.
-/

namespace AddressBook

/-! ## Field state container (`useFormState`) -/

/-- The mapping of named text fields.  A JavaScript object with string
values is modelled as a partial map from keys to values; `none` models
absence of the key. -/
def FieldMap : Type := String → Option String

/-- The container returned by the `useFormState` hook: the current fields
and the stored `initialValues` used by `resetFields`. -/
structure FormState where
  fields : FieldMap
  initialValues : FieldMap

/-- `useFormState(initialValues)`: stores `initialValues` both as the
current state and as the reset target. -/
def useFormState (initialValues : FieldMap) : FormState :=
  { fields := initialValues, initialValues := initialValues }

/-- `onChange`: `setFields((prev) => ({ ...prev, [name]: value }))` — the
spread copies every key of the previous object and then overrides `name`. -/
def formOnChange (s : FormState) (name value : String) : FormState :=
  { s with fields := fun k => if k = name then some value else s.fields k }

/-- `resetFields`: `setFields(initialValues)`. -/
def formReset (s : FormState) : FormState :=
  { s with fields := s.initialValues }

/-- A finite sequence of `onChange` events applied in order. -/
def applyEvents (s : FormState) (es : List (String × String)) : FormState :=
  es.foldl (fun st e => formOnChange st e.1 e.2) s

/-! ## Data model -/

/-- Raw entity in the lookup response's `details` list: postcode, street,
city, house-number suffix label, and an identifier. -/
structure RawAddress where
  id : String
  street : String
  city : String
  postcode : String
  houseNumberSuffix : String
deriving DecidableEq

/-- `RawAddress` enriched with the house number supplied by the user at
lookup time. -/
structure ResolvedAddress where
  id : String
  street : String
  city : String
  postcode : String
  houseNumberSuffix : String
  houseNumber : String
deriving DecidableEq

/-- Modelled from the spec: the pure transform of `src/core/models/address`
(`transformAddress`) is not among the provided source files.  §4.3 defines
it as a field-for-field copy of the raw lookup entry plus injection of the
house-number string supplied at request time. -/
def transformAddress (a : RawAddress) (houseNumber : String) : ResolvedAddress :=
  { id := a.id, street := a.street, city := a.city, postcode := a.postcode,
    houseNumberSuffix := a.houseNumberSuffix, houseNumber := houseNumber }

/-- A `ResolvedAddress` plus first and last name: the record handed to the
external collection's `addAddress`. -/
structure FinishedRecord where
  id : String
  street : String
  city : String
  postcode : String
  houseNumberSuffix : String
  houseNumber : String
  firstName : String
  lastName : String
deriving DecidableEq

/-- The workflow's result state: the single optional error-message slot
(`none` models the `undefined` of `setError(undefined)`, `some ""` the
empty-string message of `setError("")`), the candidate list, and the
loading flag. -/
structure SearchState where
  error : Option String
  addresses : List ResolvedAddress
  loading : Bool
deriving DecidableEq

/-! ## URL construction -/

/-- Uppercase hexadecimal digit, as used by both percent encoders. -/
def hexDigit (n : Nat) : Char :=
  if n < 10 then Char.ofNat (48 + n) else Char.ofNat (55 + n)

/-- `%XX` escape of one byte, uppercase hex. -/
def percentEscape (b : Nat) : String :=
  String.singleton '%' ++ String.singleton (hexDigit (b / 16))
    ++ String.singleton (hexDigit (b % 16))

/-- UTF-8 bytes of one character, as natural numbers. -/
def utf8Bytes (c : Char) : List Nat :=
  let n := c.toNat
  if n < 0x80 then [n]
  else if n < 0x800 then [0xC0 + n / 64, 0x80 + n % 64]
  else if n < 0x10000 then
    [0xE0 + n / 4096, 0x80 + (n / 64) % 64, 0x80 + n % 64]
  else
    [0xF0 + n / 262144, 0x80 + (n / 4096) % 64, 0x80 + (n / 64) % 64,
      0x80 + n % 64]

/-- The characters `encodeURIComponent` leaves unescaped: ASCII
alphanumerics and `- _ . ! ~ * ' ( )`. -/
def isURIUnescaped (c : Char) : Bool :=
  c.isAlphanum || c = '-' || c = '_' || c = '.' || c = '!' || c = '~'
    || c = '*' || c = '\'' || c = '(' || c = ')'

/-- JavaScript `encodeURIComponent`: unescaped characters are copied,
every other character is replaced by the `%XX` escapes of its UTF-8
bytes. -/
def encodeURIComponent (s : String) : String :=
  String.join (s.toList.map fun c =>
    if isURIUnescaped c then String.singleton c
    else String.join ((utf8Bytes c).map percentEscape))

/-- The bytes the `application/x-www-form-urlencoded` serializer keeps
verbatim: `*`, `-`, `.`, `_`, digits and ASCII letters. -/
def isFormSafeByte (b : Nat) : Bool :=
  b = 0x2A || b = 0x2D || b = 0x2E || (0x30 ≤ b && b ≤ 0x39)
    || (0x41 ≤ b && b ≤ 0x5A) || b = 0x5F || (0x61 ≤ b && b ≤ 0x7A)

/-- `application/x-www-form-urlencoded` percent-encoding of one string, as
`URLSearchParams.toString()` applies it to each name and value: byte-wise
over UTF-8, space becomes `+`, safe bytes are kept, every other byte is
`%XX`-escaped. -/
def formUrlEncode (s : String) : String :=
  String.join ((s.toList.flatMap utf8Bytes).map fun b =>
    if b = 0x20 then String.singleton '+'
    else if isFormSafeByte b then String.singleton (Char.ofNat b)
    else percentEscape b)

/-- A `URLSearchParams` object: the ordered list of name/value pairs. -/
abbrev URLSearchParamsState : Type := List (String × String)

/-- `params.append(name, value)`. -/
def urlSearchParamsAppend (ps : URLSearchParamsState) (name value : String) :
    URLSearchParamsState :=
  ps ++ [(name, value)]

/-- `params.toString()`: the form-urlencoded serialization
`name1=value1&name2=value2&...`, each name and value form-urlencoded. -/
def urlSearchParamsToString (ps : URLSearchParamsState) : String :=
  String.intercalate "&"
    (ps.map fun p => formUrlEncode p.1 ++ "=" ++ formUrlEncode p.2)

/-- The request URL `handleAddressSubmit` fetches, built exactly as the
source does: `encodeURIComponent` on each value, two `append`s, and
`${BASE_URL}/api/getAddresses?${params.toString()}`.  `base` stands for
`BASE_URL`. -/
def lookupRequestURL (base postCode houseNumber : String) : String :=
  let encodedPostCode := encodeURIComponent postCode
  let encodedHouseNumber := encodeURIComponent houseNumber
  let params :=
    urlSearchParamsAppend
      (urlSearchParamsAppend ([] : URLSearchParamsState) "postcode" encodedPostCode)
      "streetnumber" encodedHouseNumber
  base ++ "/api/getAddresses?" ++ urlSearchParamsToString params

/-- The URL the spec's sentence describes (refinement target, written from
the spec's words, not from the source): query-parameter values are the
user-supplied strings percent-encoded, each appearing percent-encoded
exactly once. -/
def specLookupURL (base postCode houseNumber : String) : String :=
  base ++ "/api/getAddresses?postcode=" ++ encodeURIComponent postCode
    ++ "&streetnumber=" ++ encodeURIComponent houseNumber

/-! ## Address search step (`handleAddressSubmit`) -/

/-- Outcome of the `fetch`/`response.json()` pair inside the `try` block:
a parsed response with its HTTP-success flag, optional `errormessage`
field and `details` list; a thrown `Error` instance carrying a message
(transport failure, JSON parse failure); or a thrown non-`Error` value. -/
inductive FetchOutcome where
  | response (ok : Bool) (errormessage : Option String) (details : List RawAddress)
  | thrownError (message : String)
  | thrownNonError
deriving DecidableEq

/-- `handleAddressSubmit`, as a function from the previous result state,
the submitted field values and the environment's fetch behaviour to the
result state paired with the request URL issued (`none` when no request
is made).  Mirrors the source: `setError(undefined)`, `setAddresses([])`,
`setLoading(true)`, early return on a falsy post code or house number
(the `finally` block is never reached there, so `loading` stays `true`);
otherwise the fetch runs, a 2xx response maps `transformAddress` over
`data.details`, a non-2xx response throws `new Error(data.errormessage)`
(message `""` when `errormessage` is absent), the `catch` stores the
thrown `Error`'s message or the fallback `"Failed to fetch addresses"`
for a non-`Error` value, and `finally` clears `loading`. -/
def handleAddressSubmit (base : String) (prev : SearchState)
    (postCode houseNumber : String) (fetch : FetchOutcome) :
    SearchState × Option String :=
  let s0 : SearchState := { prev with error := none }
  let s1 : SearchState := { s0 with addresses := [] }
  let s2 : SearchState := { s1 with loading := true }
  if postCode = "" ∨ houseNumber = "" then
    ({ s2 with error := some "Post code and house number are mandatory!" }, none)
  else
    let url := lookupRequestURL base postCode houseNumber
    match fetch with
    | .response true _ details =>
        ({ s2 with
            addresses := details.map (fun a => transformAddress a houseNumber),
            loading := false }, some url)
    | .response false errormessage _ =>
        ({ s2 with error := some (errormessage.getD ""), loading := false },
          some url)
    | .thrownError message =>
        ({ s2 with error := some message, loading := false }, some url)
    | .thrownNonError =>
        ({ s2 with error := some "Failed to fetch addresses", loading := false },
          some url)

/-! ## Personal-info submission step (`handlePersonSubmit`) -/

/-- The field values `handlePersonSubmit` reads. -/
structure PersonFields where
  firstName : String
  lastName : String
  selectedAddress : String
deriving DecidableEq

/-- The record handed to `addAddress`: the found candidate spread into a
new object together with the first and last name. -/
def mkFinishedRecord (a : ResolvedAddress) (firstName lastName : String) :
    FinishedRecord :=
  { id := a.id, street := a.street, city := a.city, postcode := a.postcode,
    houseNumberSuffix := a.houseNumberSuffix, houseNumber := a.houseNumber,
    firstName := firstName, lastName := lastName }

/-- `handlePersonSubmit`, as a function from the field values and the
current candidate list to the error slot afterwards and the list of
records passed to `addAddress` during the call.  Mirrors the source's
guard order: falsy first or last name; then falsy selection or empty
candidate list; then `addresses.find(...)` coming back empty; otherwise
`setError("")` and one `addAddress` call. -/
def handlePersonSubmit (fields : PersonFields)
    (addresses : List ResolvedAddress) : Option String × List FinishedRecord :=
  if fields.firstName = "" ∨ fields.lastName = "" then
    (some "First name and last name fields mandatory!", [])
  else if fields.selectedAddress = "" ∨ addresses.length = 0 then
    (some "No address selected, try to select an address or find one if you haven't", [])
  else
    match addresses.find? (fun a => a.id = fields.selectedAddress) with
    | none => (some "Selected address not found", [])
    | some foundAddress =>
        (some "", [mkFinishedRecord foundAddress fields.firstName fields.lastName])

/-! ## Shared helper lemmas -/

/-- Folding `formOnChange` over an event list never touches the stored
`initialValues`. -/
lemma applyEvents_initialValues (s : FormState) (es : List (String × String)) :
    (applyEvents s es).initialValues = s.initialValues := by
  induction es generalizing s with
  | nil => rfl
  | cons e es ih =>
      simpa [applyEvents] using ih (formOnChange s e.1 e.2)

/-- A key that is present stays present across any event sequence. -/
lemma applyEvents_keeps_key (s : FormState) (es : List (String × String))
    (k : String) (h : (s.fields k).isSome) :
    ((applyEvents s es).fields k).isSome := by
  induction es generalizing s with
  | nil => exact h
  | cons e es ih =>
      refine ih (formOnChange s e.1 e.2) ?_
      by_cases hk : k = e.1 <;> simp [formOnChange, hk, h]

/-! ## Claim theorems -/

/-- C7: for every initial mapping and every finite sequence of `onChange`
events, a reset restores exactly the initial mapping, and no event
sequence ever alters the stored defaults. -/
theorem formState_reset_roundTrip (defaults : FieldMap)
    (es : List (String × String)) :
    (formReset (applyEvents (useFormState defaults) es)).fields = defaults
      ∧ (applyEvents (useFormState defaults) es).initialValues = defaults := by
  have h := applyEvents_initialValues (useFormState defaults) es
  exact ⟨by simpa [formReset, useFormState] using h,
    by simpa [useFormState] using h⟩

/-- C8: `onChange(name, v)` keeps every key other than `name` at exactly
its previous value, removes no key, and every key present at
initialization stays present after any event sequence. -/
theorem formOnChange_frame (name value : String) :
    (∀ (s : FormState) (k : String), k ≠ name →
        (formOnChange s name value).fields k = s.fields k)
      ∧ (∀ (s : FormState) (k : String), (s.fields k).isSome →
        ((formOnChange s name value).fields k).isSome)
      ∧ (∀ (defaults : FieldMap) (es : List (String × String)) (k : String),
        (defaults k).isSome →
        ((applyEvents (useFormState defaults) es).fields k).isSome) := by
  refine ⟨fun s k hk => by simp [formOnChange, hk], fun s k h => ?_, fun d es k h => ?_⟩
  · by_cases hk : k = name <;> simp [formOnChange, hk, h]
  · exact applyEvents_keeps_key (useFormState d) es k (by simpa [useFormState] using h)

/-- Closed instance of `formOnChange_frame`: with defaults holding
`postCode` and `houseNumber`, changing `houseNumber` leaves `postCode`
untouched, keeps `houseNumber` present, and both keys survive an event
sequence. -/
theorem formOnChange_frame_witness :
    (formOnChange (useFormState
        (fun k => if k = "postCode" ∨ k = "houseNumber" then some "" else none))
        "houseNumber" "12").fields "postCode" = some ""
      ∧ ((formOnChange (useFormState
        (fun k => if k = "postCode" ∨ k = "houseNumber" then some "" else none))
        "houseNumber" "12").fields "houseNumber").isSome
      ∧ ((applyEvents (useFormState
        (fun k => if k = "postCode" ∨ k = "houseNumber" then some "" else none))
        [("houseNumber", "12"), ("postCode", "1000AA")]).fields "postCode").isSome := by
  refine ⟨((formOnChange_frame "houseNumber" "12").1 _ "postCode" (by decide)).trans
      (by simp [useFormState]),
    (formOnChange_frame "houseNumber" "12").2.1 _ "houseNumber" (by simp [useFormState]),
    (formOnChange_frame "houseNumber" "12").2.2 _
      [("houseNumber", "12"), ("postCode", "1000AA")] "postCode" (by simp)⟩

/-- C1: on an HTTP-success response with non-empty post code and house
number, the result's candidate list is the pure transform mapped over the
response's details, every resulting entry carries the house number
supplied at request time, the error slot is cleared and loading ends
false. -/
theorem addressSubmit_success_transforms (base : String) (prev : SearchState)
    (postCode houseNumber : String) (em : Option String)
    (details : List RawAddress) (hpc : postCode ≠ "") (hhn : houseNumber ≠ "") :
    (handleAddressSubmit base prev postCode houseNumber
        (.response true em details)).1 =
      { error := none,
        addresses := details.map (fun a => transformAddress a houseNumber),
        loading := false }
      ∧ ∀ r ∈ (handleAddressSubmit base prev postCode houseNumber
          (.response true em details)).1.addresses, r.houseNumber = houseNumber := by
  constructor
  · simp [handleAddressSubmit, hpc, hhn]
  · intro r hr
    simp [handleAddressSubmit, hpc, hhn] at hr
    obtain ⟨a, _, ha⟩ := hr
    simpa [transformAddress] using congrArg ResolvedAddress.houseNumber ha.symm

/-- Closed instance of `addressSubmit_success_transforms`: the stubbed
response with one detail entry of id `a1`, for house number `1`, yields
exactly one candidate with id `a1` and house number `1`. -/
theorem addressSubmit_success_witness :
    (handleAddressSubmit "http://localhost:3000"
        { error := some "old", addresses := [], loading := false }
        "1000AA" "1"
        (.response true none [⟨"a1", "Main", "Amsterdam", "1000AA", "A"⟩])).1 =
      { error := none,
        addresses := [⟨"a1", "Main", "Amsterdam", "1000AA", "A", "1"⟩],
        loading := false } :=
  ((addressSubmit_success_transforms "http://localhost:3000"
      { error := some "old", addresses := [], loading := false }
      "1000AA" "1" none [⟨"a1", "Main", "Amsterdam", "1000AA", "A"⟩]
      (by decide) (by decide)).1).trans (by decide)

/-- C2: at the failing input (empty post code and house number), the code
leaves `loading = true` while the mandatory-field error message is set —
the documented loading/error exclusion does not hold after a failed
mandatory-field check. -/
theorem addressSubmit_validationFailure_leavesLoading :
    (handleAddressSubmit "http://localhost:3000"
        { error := none, addresses := [], loading := false }
        "" "" .thrownNonError).1 =
      { error := some "Post code and house number are mandatory!",
        addresses := [], loading := true } := by
  decide

/-- C3 counterexample: a non-success response whose body carries no
`errormessage` yields the empty-string error message, not the generic
`Failed to fetch addresses` the claim states. -/
theorem addressSubmit_missingMessage_counterexample :
    (handleAddressSubmit "http://localhost:3000"
          { error := none, addresses := [], loading := false }
          "1000AA" "1" (.response false none [])).1.error = some ""
      ∧ (handleAddressSubmit "http://localhost:3000"
          { error := none, addresses := [], loading := false }
          "1000AA" "1" (.response false none [])).1.error ≠
        some "Failed to fetch addresses" := by
  decide

/-- C3 amended: on a non-success response the error becomes the carried
`errormessage` when present and the empty string when absent; on a thrown
`Error` (transport failure) it becomes that error's own message; the
generic `Failed to fetch addresses` appears only when a non-`Error` value
is thrown.  In every failure case the candidate list is empty and loading
is cleared. -/
theorem addressSubmit_failure_behaviour (base : String) (prev : SearchState)
    (postCode houseNumber : String) (em : Option String)
    (details : List RawAddress) (message : String)
    (hpc : postCode ≠ "") (hhn : houseNumber ≠ "") :
    (handleAddressSubmit base prev postCode houseNumber
        (.response false em details)).1 =
      { error := some (em.getD ""), addresses := [], loading := false }
      ∧ (handleAddressSubmit base prev postCode houseNumber
          (.thrownError message)).1 =
        { error := some message, addresses := [], loading := false }
      ∧ (handleAddressSubmit base prev postCode houseNumber .thrownNonError).1 =
        { error := some "Failed to fetch addresses", addresses := [],
          loading := false } := by
  refine ⟨?_, ?_, ?_⟩ <;> simp [handleAddressSubmit, hpc, hhn]

/-- Closed instance of `addressSubmit_failure_behaviour`: the stubbed
HTTP failure carrying `errormessage = "not found"` sets the error to
`not found` with an empty candidate list. -/
theorem addressSubmit_failure_witness :
    (handleAddressSubmit "http://localhost:3000"
        { error := none, addresses := [], loading := false }
        "1000AA" "1" (.response false (some "not found") [])).1 =
      { error := some "not found", addresses := [], loading := false } :=
  ((addressSubmit_failure_behaviour "http://localhost:3000"
      { error := none, addresses := [], loading := false }
      "1000AA" "1" (some "not found") [] "x" (by decide) (by decide)).1).trans
    (by decide)

/-- C6: whenever the post code or the house number is empty, the error
message is set to the mandatory-field text and no lookup request is
issued. -/
theorem addressSubmit_mandatory (base : String) (prev : SearchState)
    (postCode houseNumber : String) (fetch : FetchOutcome)
    (h : postCode = "" ∨ houseNumber = "") :
    (handleAddressSubmit base prev postCode houseNumber fetch).1.error =
        some "Post code and house number are mandatory!"
      ∧ (handleAddressSubmit base prev postCode houseNumber fetch).2 = none := by
  simp [handleAddressSubmit, h]

/-- Closed instance of `addressSubmit_mandatory`: an empty post code with
a non-empty house number sets the mandatory-field error and issues no
request. -/
theorem addressSubmit_mandatory_witness :
    (handleAddressSubmit "http://localhost:3000"
        { error := none, addresses := [], loading := false }
        "" "42" .thrownNonError).1.error =
        some "Post code and house number are mandatory!"
      ∧ (handleAddressSubmit "http://localhost:3000"
        { error := none, addresses := [], loading := false }
        "" "42" .thrownNonError).2 = none :=
  addressSubmit_mandatory "http://localhost:3000"
    { error := none, addresses := [], loading := false }
    "" "42" .thrownNonError (Or.inl rfl)

/-- C10: the submission overwrites the error slot, the candidate list and
the loading flag before the mandatory-field check, so its outcome is
independent of the previous state, and after a submission that fails
validation the candidate list is empty. -/
theorem addressSubmit_clears_previous (base : String) (prev : SearchState)
    (postCode houseNumber : String) (fetch : FetchOutcome) :
    handleAddressSubmit base prev postCode houseNumber fetch =
        handleAddressSubmit base { error := none, addresses := [], loading := false }
          postCode houseNumber fetch
      ∧ (postCode = "" ∨ houseNumber = "" →
        (handleAddressSubmit base prev postCode houseNumber fetch).1.addresses = []) := by
  constructor
  · rfl
  · intro h
    simp [handleAddressSubmit, h]

/-- Closed instance of `addressSubmit_clears_previous`: a failed
validation wipes a previously found candidate list. -/
theorem addressSubmit_clears_previous_witness :
    (handleAddressSubmit "http://localhost:3000"
        { error := some "old",
          addresses := [⟨"a1", "Main", "Amsterdam", "1000AA", "A", "2"⟩],
          loading := false }
        "" "5" .thrownNonError).1.addresses = [] :=
  (addressSubmit_clears_previous "http://localhost:3000"
      { error := some "old",
        addresses := [⟨"a1", "Main", "Amsterdam", "1000AA", "A", "2"⟩],
        loading := false }
      "" "5" .thrownNonError).2 (Or.inl rfl)

/-- C4: when first and last name are non-empty, the selection field is
non-empty, and the selection matches a candidate, exactly one record —
the matched candidate's fields plus the two names — is handed to the
collection's add operation, and the error slot is empty afterwards. -/
theorem personSubmit_success (fields : PersonFields)
    (addresses : List ResolvedAddress) (a : ResolvedAddress)
    (hf : fields.firstName ≠ "") (hl : fields.lastName ≠ "")
    (hs : fields.selectedAddress ≠ "")
    (hfind : addresses.find? (fun x => x.id = fields.selectedAddress) = some a) :
    handlePersonSubmit fields addresses =
      (some "", [mkFinishedRecord a fields.firstName fields.lastName]) := by
  have hne : addresses.length ≠ 0 := by
    intro h
    rw [List.length_eq_zero] at h
    subst h
    simp at hfind
  simp [handlePersonSubmit, hf, hl, hs, hne, hfind]

/-- Closed instance of `personSubmit_success`: selecting the single found
candidate and submitting valid names adds exactly one combined record and
empties the error slot. -/
theorem personSubmit_success_witness :
    handlePersonSubmit ⟨"Ada", "Lovelace", "a1"⟩
        [⟨"a1", "Main", "Amsterdam", "1000AA", "A", "1"⟩] =
      (some "", [⟨"a1", "Main", "Amsterdam", "1000AA", "A", "1", "Ada", "Lovelace"⟩]) :=
  (personSubmit_success ⟨"Ada", "Lovelace", "a1"⟩
      [⟨"a1", "Main", "Amsterdam", "1000AA", "A", "1"⟩]
      ⟨"a1", "Main", "Amsterdam", "1000AA", "A", "1"⟩
      (by decide) (by decide) (by decide) (by decide)).trans (by decide)

/-- C5: the personal-info guards run in order and each failure aborts
with no record added — empty first or last name gives the
mandatory-names error regardless of selection state, then an empty
selection or empty candidate list gives the no-address error, then a
selection matching no candidate gives the not-found error. -/
theorem personSubmit_guard_order (fields : PersonFields)
    (addresses : List ResolvedAddress) :
    (fields.firstName = "" ∨ fields.lastName = "" →
        handlePersonSubmit fields addresses =
          (some "First name and last name fields mandatory!", []))
      ∧ (fields.firstName ≠ "" → fields.lastName ≠ "" →
        fields.selectedAddress = "" ∨ addresses = [] →
        handlePersonSubmit fields addresses =
          (some "No address selected, try to select an address or find one if you haven't", []))
      ∧ (fields.firstName ≠ "" → fields.lastName ≠ "" →
        fields.selectedAddress ≠ "" → addresses ≠ [] →
        addresses.find? (fun x => x.id = fields.selectedAddress) = none →
        handlePersonSubmit fields addresses =
          (some "Selected address not found", [])) := by
  refine ⟨fun h => by simp [handlePersonSubmit, h], fun hf hl h => ?_, ?_⟩
  · rcases h with h | h
    · simp [handlePersonSubmit, hf, hl, h]
    · subst h
      simp [handlePersonSubmit, hf, hl]
  · intro hf hl hs hne hfind
    have hlen : addresses.length ≠ 0 := by
      simpa [List.length_eq_zero] using hne
    simp [handlePersonSubmit, hf, hl, hs, hlen, hfind]

/-- Closed instance of `personSubmit_guard_order`: an empty first name
with a valid selection gives the mandatory-names error; valid names with
no selection give the no-address error; valid names with a selection
matching no candidate give the not-found error; none adds a record. -/
theorem personSubmit_guard_order_witness :
    handlePersonSubmit ⟨"", "Lovelace", "a1"⟩
        [⟨"a1", "Main", "Amsterdam", "1000AA", "A", "1"⟩] =
      (some "First name and last name fields mandatory!", [])
      ∧ handlePersonSubmit ⟨"Ada", "Lovelace", ""⟩
          [⟨"a1", "Main", "Amsterdam", "1000AA", "A", "1"⟩] =
        (some "No address selected, try to select an address or find one if you haven't", [])
      ∧ handlePersonSubmit ⟨"Ada", "Lovelace", "zz"⟩
          [⟨"a1", "Main", "Amsterdam", "1000AA", "A", "1"⟩] =
        (some "Selected address not found", []) :=
  ⟨(personSubmit_guard_order ⟨"", "Lovelace", "a1"⟩
      [⟨"a1", "Main", "Amsterdam", "1000AA", "A", "1"⟩]).1 (Or.inl rfl),
    (personSubmit_guard_order ⟨"Ada", "Lovelace", ""⟩
      [⟨"a1", "Main", "Amsterdam", "1000AA", "A", "1"⟩]).2.1
      (by decide) (by decide) (Or.inl rfl),
    (personSubmit_guard_order ⟨"Ada", "Lovelace", "zz"⟩
      [⟨"a1", "Main", "Amsterdam", "1000AA", "A", "1"⟩]).2.2
      (by decide) (by decide) (by decide) (by decide) (by decide)⟩

/-- C9 counterexample: for post code `1000 AA` the issued request URL
differs from the spec's once-percent-encoded URL — the space becomes
`%2520`, the `%20` produced by `encodeURIComponent` being re-encoded by
the `URLSearchParams` serialization. -/
theorem lookupURL_doubleEncoding_counterexample :
    lookupRequestURL "http://localhost:3000" "1000 AA" "1" ≠
      specLookupURL "http://localhost:3000" "1000 AA" "1" := by
  decide

/-- C9 amended: the issued request URL carries each user-supplied value
passed through `encodeURIComponent` and then percent-encoded a second
time by the `URLSearchParams` form-urlencoded serialization. -/
theorem lookupURL_encoded_twice (base postCode houseNumber : String) :
    lookupRequestURL base postCode houseNumber =
      base ++ "/api/getAddresses?"
        ++ ("postcode=" ++ formUrlEncode (encodeURIComponent postCode)
          ++ "&streetnumber=" ++ formUrlEncode (encodeURIComponent houseNumber)) := by
  have h1 : formUrlEncode "postcode" = "postcode" := rfl
  have h2 : formUrlEncode "streetnumber" = "streetnumber" := rfl
  have e1 : ("postcode" : String) ++ "=" = "postcode=" := rfl
  have e2 : ("&" : String) ++ "streetnumber" = "&streetnumber" := rfl
  have e3 : ("&streetnumber" : String) ++ "=" = "&streetnumber=" := rfl
  have h3 : ∀ x : String, "postcode" ++ ("=" ++ x) = "postcode=" ++ x := by
    intro x
    rw [← String.append_assoc, e1]
  have h4 : ∀ x : String,
      "&" ++ ("streetnumber" ++ ("=" ++ x)) = "&streetnumber=" ++ x := by
    intro x
    rw [← String.append_assoc, ← String.append_assoc, e2, e3]
  simp [lookupRequestURL, urlSearchParamsAppend, urlSearchParamsToString,
    String.intercalate, String.intercalate.go, h1, h2, String.append_assoc,
    h3, h4]

end AddressBook
